import Mathlib

/-
Verification development for the resume-tailoring pipeline.

The Python sources are shallowly embedded: Python strings become lists of
characters, Python dictionaries holding JSON data become the inductive type
JVal, functions that can raise become Option- or Except-valued functions,
and the remote HTTP calls, document libraries and the filesystem become
explicit oracle parameters. Each embedded definition mirrors one function
of the repository; the doc comment names it.
-/

/-- Python strings are modelled as lists of characters. -/
abbrev Str := List Char

/-- Python str.find(sub): index of the first occurrence of needle in hay,
encoded as an Option instead of the -1 convention. -/
def findIn : Str → Str → Option Nat
  | [], needle => if needle = [] then some 0 else none
  | c :: rest, needle =>
    if needle.isPrefixOf (c :: rest) then some 0
    else (findIn rest needle).map (· + 1)

/-- Python str.find(sub, start): first occurrence at or after index start. -/
def findFrom (hay needle : Str) (start : Nat) : Option Nat :=
  (findIn (hay.drop start) needle).map (· + start)

/-- Python str.rfind(ch) for a single character: index of the last occurrence. -/
def rfindChar : Str → Char → Option Nat
  | [], _ => none
  | a :: rest, ch =>
    match rfindChar rest ch with
    | some i => some (i + 1)
    | none => if a = ch then some 0 else none

/-- Python slice s[a:b] for nonnegative bounds. -/
def pySlice (s : Str) (a b : Nat) : Str := (s.drop a).take (b - a)

/-- Whitespace characters removed by Python str.strip(). -/
def isPySpace (c : Char) : Bool :=
  c = ' ' || c = '\t' || c = '\n' || c = '\r' || c = '\x0b' || c = '\x0c'

/-- Python str.strip(): drop leading and trailing whitespace. -/
def pyStrip (s : Str) : Str :=
  ((s.dropWhile isPySpace).reverse.dropWhile isPySpace).reverse

/-- Python substring containment, the operator sub in s. -/
def containsSub (hay needle : Str) : Bool := (findIn hay needle).isSome

/-- Opening-brace and closing-brace characters. -/
def lbrace : Char := '\x7b'

/-- Closing brace. -/
def rbrace : Char := '\x7d'

/-- The tagged code-fence marker searched by pattern 1 of the extractors. -/
def jsonTag : Str := "```json".toList

/-- The plain code-fence marker. -/
def fence : Str := "```".toList

/-- Pattern 1 of GroqResumeExtractor._extract_json_from_response (and of the
identically written method 1 in JobDescriptionParser and
CommandLineResumeGenerator): a code block tagged json, returning the stripped
content between the tag and the next fence; nothing when the tag is absent or
no closing fence follows it. -/
def pat1 (content : Str) : Option Str :=
  match findIn content jsonTag with
  | none => none
  | some i =>
    match findFrom content fence (i + 7) with
    | none => none
    | some e => some (pyStrip (pySlice content (i + 7) e))

/-- Pattern 2 of GroqResumeExtractor._extract_json_from_response: an untagged
code block whose stripped content starts with an opening brace and ends with a
closing brace. This pattern exists only in the groq extractor. -/
def pat2 (content : Str) : Option Str :=
  match findIn content fence with
  | none => none
  | some i =>
    match findFrom content fence (i + 3) with
    | none => none
    | some e =>
      let potential := pyStrip (pySlice content (i + 3) e)
      if [lbrace].isPrefixOf potential && [rbrace].isSuffixOf potential then
        some potential
      else none

/-- Pattern 3 of the extractors: the inclusive substring from the first opening
brace to the last closing brace, mirroring find, rfind and the comparison
json_end > json_start of the source. -/
def pat3 (content : Str) : Option Str :=
  match findIn content [lbrace], rfindChar content rbrace with
  | some a, some b => if b + 1 > a then some (pySlice content a (b + 1)) else none
  | _, _ => none

/-- Pattern 4 of the extractors: the whole stripped text when it starts with an
opening brace and ends with a closing brace. -/
def pat4 (content : Str) : Option Str :=
  let s := pyStrip content
  if [lbrace].isPrefixOf s && [rbrace].isSuffixOf s then some s else none

/-- GroqResumeExtractor._extract_json_from_response: patterns 1, 2, 3, 4 in
order, returning the empty string when none matches. -/
def groqExtractJson (content : Str) : Str :=
  match pat1 content with
  | some r => r
  | none =>
    match pat2 content with
    | some r => r
    | none =>
      match pat3 content with
      | some r => r
      | none =>
        match pat4 content with
        | some r => r
        | none => []

/-- JobDescriptionParser._extract_json_from_response: patterns 1, 3, 4 in
order (it has no untagged-fence pattern), returning None when none matches. -/
def jobExtractJson (content : Str) : Option Str :=
  match pat1 content with
  | some r => some r
  | none =>
    match pat3 content with
    | some r => some r
    | none => pat4 content

/-- CommandLineResumeGenerator._extract_json: patterns 1, 3, 4 in order,
returning the empty string when none matches. -/
def genExtractJson (content : Str) : Str :=
  match pat1 content with
  | some r => r
  | none =>
    match pat3 content with
    | some r => r
    | none =>
      match pat4 content with
      | some r => r
      | none => []

/-- Identification of the no-candidate encodings: the empty string returned by
the string-valued extractors stands for no candidate. -/
def toCand (s : Str) : Option Str := if s = [] then none else some s

/-- JSON-like values held in the Python dictionaries that flow between the
pipeline stages. -/
inductive JVal where
  | jnull : JVal
  | jbool (b : Bool) : JVal
  | jnum (n : Int) : JVal
  | jstr (s : Str) : JVal
  | jarr (xs : List JVal) : JVal
  | jobj (fs : List (Str × JVal)) : JVal

/-- Comma-space separated join, as Python uses when printing containers. -/
def commaJoin (xs : List Str) : Str := List.intercalate (", ".toList) xs

/-- Python repr() of a JSON-like value: scalars as Python prints them, lists
in square brackets, dictionaries in braces with quoted keys. -/
def pyRepr : JVal → Str
  | JVal.jnull => "None".toList
  | JVal.jbool true => "True".toList
  | JVal.jbool false => "False".toList
  | JVal.jnum n => (toString n).toList
  | JVal.jstr s => '\x27' :: s ++ ['\x27']
  | JVal.jarr xs => '[' :: commaJoin (xs.attach.map (fun x => pyRepr x.1)) ++ [']']
  | JVal.jobj fs =>
      '\x7b' :: commaJoin (fs.attach.map
        (fun p => '\x27' :: p.1.1 ++ ['\x27', ':', ' '] ++ pyRepr p.1.2)) ++ ['\x7d']
decreasing_by
  · have := List.sizeOf_lt_of_mem x.2
    simp only [JVal.jarr.sizeOf_spec]
    omega
  · have h := List.sizeOf_lt_of_mem p.2
    have h2 : sizeOf p.1.2 < sizeOf p.1 := by
      cases p.1 with
      | mk a b => simp
    simp only [JVal.jobj.sizeOf_spec]
    omega

/-- Python str() of a value, as used inside an f-string: a string renders as
itself, anything else as its repr. -/
def pyStr : JVal → Str
  | JVal.jstr s => s
  | v => pyRepr v

/-- Lookup of a key in the association list of a dictionary value. -/
def alookup (fs : List (Str × JVal)) (k : Str) : Option JVal :=
  (fs.find? (fun p => p.1 == k)).map (fun p => p.2)

/-- Python d.get(key, default): defaults when the key is missing, raises
(modelled as none) when the receiver is not a dictionary. -/
def dget (v : JVal) (k : Str) (dflt : JVal) : Option JVal :=
  match v with
  | JVal.jobj fs => some ((alookup fs k).getD dflt)
  | _ => none

/-- Python d[key]: raises (none) on a missing key or a non-dictionary
receiver. -/
def dindex (v : JVal) (k : Str) : Option JVal :=
  match v with
  | JVal.jobj fs => alookup fs k
  | _ => none

/-- Python iteration over a value: lists yield their elements, strings yield
one-character strings, dictionaries yield their keys, scalars raise. -/
def pyIter : JVal → Option (List JVal)
  | JVal.jarr xs => some xs
  | JVal.jstr s => some (s.map (fun c => JVal.jstr [c]))
  | JVal.jobj fs => some (fs.map (fun p => JVal.jstr p.1))
  | _ => none

def kPersonalDetails : Str := "personal_details".toList
def kName : Str := "name".toList
def kEmail : Str := "email".toList
def kPhone : Str := "phone".toList
def kAddress : Str := "address".toList
def kLinkedin : Str := "linkedin".toList
def kGithub : Str := "github".toList
def kPortfolio : Str := "portfolio".toList
def kWebsite : Str := "website".toList
def kSummary : Str := "summary".toList
def kSkills : Str := "skills".toList
def kTechnicalSkills : Str := "technical_skills".toList
def kEducation : Str := "education".toList
def kProjects : Str := "projects".toList
def kCertifications : Str := "certifications".toList
def kWorkExperience : Str := "work_experience".toList
def kPosition : Str := "position".toList
def kCompany : Str := "company".toList
def kLocation : Str := "location".toList
def kStartDate : Str := "start_date".toList
def kEndDate : Str := "end_date".toList
def kDescription : Str := "description".toList
def kDuration : Str := "duration".toList
def kAchievements : Str := "achievements".toList
def kPersonalInfo : Str := "personal_info".toList
def kProfessionalSummary : Str := "professional_summary".toList
def kCoreCompetencies : Str := "core_competencies".toList
def kProfessionalExperience : Str := "professional_experience".toList
def kTechnicalSkillsOut : Str := "technical_skills".toList
def kProgrammingLanguages : Str := "programming_languages".toList
def kFrameworksTools : Str := "frameworks_tools".toList
def kDatabases : Str := "databases".toList
def kOtherTechnical : Str := "other_technical".toList

/-- Separator placed between start date and end date in the duration field. -/
def sepDash : Str := " - ".toList

/-- Body of the work-experience loop of ResumeCustomizationSystem.process_cv:
builds one professional_experience entry from one raw work_experience entry,
raising (none) when the entry does not support the .get calls. -/
def mapExp (exp : JVal) : Option JVal :=
  match dget exp kPosition (JVal.jstr []) with
  | none => none
  | some pos =>
  match dget exp kCompany (JVal.jstr []) with
  | none => none
  | some comp =>
  match dget exp kLocation (JVal.jstr []) with
  | none => none
  | some loc =>
  match dget exp kStartDate (JVal.jstr []) with
  | none => none
  | some sd =>
  match dget exp kEndDate (JVal.jstr []) with
  | none => none
  | some ed =>
  match dget exp kDescription (JVal.jstr []) with
  | none => none
  | some desc =>
  some (JVal.jobj [(kPosition, pos), (kCompany, comp), (kLocation, loc),
    (kDuration, JVal.jstr (pyStr sd ++ sepDash ++ pyStr ed)),
    (kAchievements, JVal.jarr [desc])])

/-- The work-experience loop of process_cv, appending mapped entries in
order. -/
def mapExps : List JVal → Option (List JVal)
  | [] => some []
  | e :: rest =>
    match mapExp e, mapExps rest with
    | some m, some ms => some (m :: ms)
    | _, _ => none

/-- Field mapping of ResumeCustomizationSystem.process_cv from the extractor
schema to the generator schema (main.py lines 98 to 130). Direct subscripts
of the source, cv_data with the keys personal_details and skills, are modelled
by dindex and so raise (none) when the key is missing or the receiver is not a
dictionary; every .get call is modelled by dget with the default of the
source. -/
def mapResume (cv_data : JVal) : Option JVal :=
  match dindex cv_data kPersonalDetails with
  | none => none
  | some pd =>
  match dget pd kName (JVal.jstr []) with
  | none => none
  | some name =>
  match dget pd kEmail (JVal.jstr []) with
  | none => none
  | some email =>
  match dget pd kPhone (JVal.jstr []) with
  | none => none
  | some phone =>
  match dget pd kAddress (JVal.jstr []) with
  | none => none
  | some location =>
  match dget pd kLinkedin (JVal.jstr []) with
  | none => none
  | some linkedin =>
  match dget pd kWebsite (JVal.jstr []) with
  | none => none
  | some portfolio =>
  match dget cv_data kSummary (JVal.jstr []) with
  | none => none
  | some summary =>
  match dindex cv_data kSkills with
  | none => none
  | some sk =>
  match dget sk kTechnicalSkills (JVal.jarr []) with
  | none => none
  | some core =>
  match dget cv_data kEducation (JVal.jarr []) with
  | none => none
  | some education =>
  match dget sk kTechnicalSkills (JVal.jarr []) with
  | none => none
  | some otherTech =>
  match dget cv_data kProjects (JVal.jarr []) with
  | none => none
  | some projects =>
  match dget cv_data kCertifications (JVal.jarr []) with
  | none => none
  | some certs =>
  match dget cv_data kWorkExperience (JVal.jarr []) with
  | none => none
  | some weRaw =>
  match pyIter weRaw with
  | none => none
  | some exps =>
  match mapExps exps with
  | none => none
  | some mappedExps =>
  some (JVal.jobj [
    (kPersonalInfo, JVal.jobj [(kName, name), (kEmail, email), (kPhone, phone),
      (kLocation, location), (kLinkedin, linkedin), (kPortfolio, portfolio)]),
    (kProfessionalSummary, summary),
    (kCoreCompetencies, core),
    (kProfessionalExperience, JVal.jarr mappedExps),
    (kEducation, education),
    (kTechnicalSkillsOut, JVal.jobj [
      (kProgrammingLanguages, JVal.jarr []),
      (kFrameworksTools, JVal.jarr []),
      (kDatabases, JVal.jarr []),
      (kOtherTechnical, otherTech)]),
    (kProjects, projects),
    (kCertifications, certs)])

/-- Pure form of mapExp on a dictionary entry, used to state what the mapping
produces on well-formed work-experience entries. -/
def mapExpObj (efs : List (Str × JVal)) : JVal :=
  JVal.jobj [(kPosition, (alookup efs kPosition).getD (JVal.jstr [])),
    (kCompany, (alookup efs kCompany).getD (JVal.jstr [])),
    (kLocation, (alookup efs kLocation).getD (JVal.jstr [])),
    (kDuration, JVal.jstr (pyStr ((alookup efs kStartDate).getD (JVal.jstr []))
      ++ sepDash ++ pyStr ((alookup efs kEndDate).getD (JVal.jstr [])))),
    (kAchievements, JVal.jarr [(alookup efs kDescription).getD (JVal.jstr [])])]

/-- Decimal rendering of a number, as Python interpolates it into messages. -/
def natStr (n : Nat) : Str := (toString n).toList

/-- Lowercasing, Python str.lower() on ascii names. -/
def pyLower (s : Str) : Str := s.map Char.toLower

/-- Final path component, everything after the last slash. -/
def lastComponent (p : Str) : Str := (p.reverse.takeWhile (fun c => c ≠ '/')).reverse

/-- Pathlib suffix of a path: from the last dot of the final component, when
that dot is neither the first nor the last character of the component. -/
def pySuffix (p : Str) : Str :=
  let n := lastComponent p
  match rfindChar n '.' with
  | none => []
  | some i => if 0 < i ∧ i + 1 < n.length then n.drop i else []

/-- Result envelope of the remote-call stages: the success flag together with
the optional structured payload, error message and raw response of the
returned dictionary (for the tailoring stage the payload key of the source is
named tailored_resume; further bookkeeping keys such as provider, model and
timestamp are not modelled). -/
structure Envelope where
  success : Bool
  data : Option JVal
  error : Option Str
  raw_response : Option Str

/-- Outcome of one blocking HTTP chat-completion call, the external
collaborator of every remote stage: a decoded response with its status code
and message content (the content doubles as the response text that non-200
error messages interpolate), a timeout, a requests-level failure, or any
other raised exception. -/
inductive NetOutcome where
  | ok (status : Nat) (content : Str) : NetOutcome
  | timeout : NetOutcome
  | reqFail (msg : Str) : NetOutcome
  | exn (msg : Str) : NetOutcome

/-- The placeholder credential hardcoded in the three remote-call classes. -/
def placeholderKey : Str := "YOUR_GROQ_API_KEY_HERE".toList

/-- Python slicing content to 200 characters with an ellipsis, as the groq
extractor stores its raw_response. -/
def truncate200 (s : Str) : Str :=
  if s.length > 200 then s.take 200 ++ ("...".toList) else s

def msgGroqKey : Str :=
  "Please replace \x27YOUR_GROQ_API_KEY_HERE\x27 with your actual Groq API key in the code".toList
def msgGroqInvalid : Str := "Invalid JSON response from Groq: ".toList
def msgGroqNoJson : Str := "Could not extract valid JSON from Groq response".toList
def msgGroqApiPre : Str := "Groq API error: ".toList
def msgGroqTimeout : Str := "Groq API request timed out".toList
def msgGroqReqFail : Str := "Groq API request failed: ".toList
def msgGroqExn : Str := "Groq extraction failed: ".toList
def sepDashMsg : Str := " - ".toList

/-- GroqResumeExtractor.extract_with_groq: the placeholder-credential check,
then the HTTP call (an oracle), then JSON-candidate extraction and parsing of
the content; json.loads is the oracle loads, carrying the decode-error text on
failure. The resume text argument only feeds the prompt of the external call
and is therefore not a parameter. -/
def extract_with_groq (api_key : Str) (loads : Str → Except Str JVal)
    (net : NetOutcome) : Envelope :=
  if api_key == placeholderKey then
    Envelope.mk false none (some msgGroqKey) none
  else
    match net with
    | NetOutcome.ok status content =>
      if status == 200 then
        if groqExtractJson content ≠ [] then
          match loads (groqExtractJson content) with
          | Except.ok v =>
            Envelope.mk true (some v) none (some (truncate200 content))
          | Except.error m =>
            Envelope.mk false none (some (msgGroqInvalid ++ m)) (some content)
        else
          Envelope.mk false none (some msgGroqNoJson) (some content)
      else
        Envelope.mk false none
          (some (msgGroqApiPre ++ natStr status ++ sepDashMsg ++ content)) none
    | NetOutcome.timeout => Envelope.mk false none (some msgGroqTimeout) none
    | NetOutcome.reqFail m => Envelope.mk false none (some (msgGroqReqFail ++ m)) none
    | NetOutcome.exn m => Envelope.mk false none (some (msgGroqExn ++ m)) none

def msgJobEmpty : Str := "Job description text is empty".toList
def msgJobKey : Str :=
  "Please set your Groq API key. Replace YOUR_GROQ_API_KEY_HERE with your actual key.".toList
def msgJobInvalid : Str := "Invalid JSON in response: ".toList
def msgJobNoJson : Str := "No valid JSON found in response".toList
def msgJobApiPre : Str := "API error: ".toList
def msgJobTimeout : Str := "Request timeout - please try again".toList
def msgJobNet : Str := "Network error: ".toList
def msgJobUnexpected : Str := "Unexpected error: ".toList

/-- JobDescriptionParser.parse_job_description: empty-text check, placeholder
credential check, HTTP call, JSON-candidate extraction (the candidate counts
only when truthy, so the empty string behaves like no candidate) and
parsing. -/
def parse_job_description (job_text : Str) (api_key : Str)
    (loads : Str → Except Str JVal) (net : NetOutcome) : Envelope :=
  if job_text = [] ∨ pyStrip job_text = [] then
    Envelope.mk false none (some msgJobEmpty) none
  else if api_key == placeholderKey then
    Envelope.mk false none (some msgJobKey) none
  else
    match net with
    | NetOutcome.ok status content =>
      if status == 200 then
        if (jobExtractJson content).getD [] ≠ [] then
          match loads ((jobExtractJson content).getD []) with
          | Except.ok v => Envelope.mk true (some v) none none
          | Except.error m =>
            Envelope.mk false none (some (msgJobInvalid ++ m)) (some content)
        else
          Envelope.mk false none (some msgJobNoJson) (some content)
      else
        Envelope.mk false none
          (some (msgJobApiPre ++ natStr status ++ sepDashMsg ++ content)) none
    | NetOutcome.timeout => Envelope.mk false none (some msgJobTimeout) none
    | NetOutcome.reqFail m => Envelope.mk false none (some (msgJobNet ++ m)) none
    | NetOutcome.exn m => Envelope.mk false none (some (msgJobUnexpected ++ m)) none

def msgTailorKey : Str := "API key not set. Use --api-key option or edit the code.".toList
def msgTailorInvalid : Str := "Invalid JSON response: ".toList
def msgTailorNoJson : Str := "No valid JSON found in response".toList
def msgTailorFail : Str := "Resume tailoring failed: ".toList

/-- Textual form of the exception a network outcome raises inside the single
generic handler of tailor_resume. -/
def netExnText : NetOutcome → Str
  | NetOutcome.ok _ _ => []
  | NetOutcome.timeout => "timed out".toList
  | NetOutcome.reqFail m => m
  | NetOutcome.exn m => m

/-- CommandLineResumeGenerator.tailor_resume: placeholder-credential check,
HTTP call, JSON-candidate extraction and parsing; the data field of the
envelope models the tailored_resume key of the source dictionary, and every
raised exception, timeouts included, lands in one generic handler. The resume
and job dictionaries only feed the prompt and are not parameters. -/
def tailor_resume (api_key : Str) (loads : Str → Except Str JVal)
    (net : NetOutcome) : Envelope :=
  if api_key == placeholderKey then
    Envelope.mk false none (some msgTailorKey) none
  else
    match net with
    | NetOutcome.ok status content =>
      if status == 200 then
        if genExtractJson content ≠ [] then
          match loads (genExtractJson content) with
          | Except.ok v => Envelope.mk true (some v) none none
          | Except.error m =>
            Envelope.mk false none (some (msgTailorInvalid ++ m)) none
        else
          Envelope.mk false none (some msgTailorNoJson) none
      else
        Envelope.mk false none
          (some (msgJobApiPre ++ natStr status ++ sepDashMsg ++ content)) none
    | other => Envelope.mk false none (some (msgTailorFail ++ netExnText other)) none

/-- Dictionary returned by the document-conversion stage. Every branch of the
source supplies a text key; format and error are optional; no branch ever
writes a success key, which the model records as an always-none Option (the
metadata and extraction_method keys are not modelled). -/
structure DocResult where
  success : Option Bool
  text : Str
  format : Option Str
  error : Option Str

/-- Outcome of the external text-extraction library call (pdfplumber, or
docx2txt with the python-docx fallback): the accumulated raw text, or a
raised exception. -/
inductive ConvOutcome where
  | ok (text : Str) : ConvOutcome
  | exn (msg : Str) : ConvOutcome

def sPdf : Str := "pdf".toList
def sDocx : Str := "docx".toList
def msgPdfFail : Str := "PDF extraction failed: ".toList
def msgDocxFail : Str := "DOCX extraction failed: ".toList
def msgFileNotFound : Str := "File not found: ".toList
def msgUnsupPre : Str := "Unsupported file format: ".toList
def msgUnsupPost : Str :=
  ". Supported: [\x27.pdf\x27, \x27.docx\x27, \x27.doc\x27]".toList
def msgNoHandlerPre : Str := "Handler not implemented for ".toList

/-- DocumentConverter.extract_from_pdf: on success the stripped accumulated
page text (page cleaning happens inside the external call the oracle models),
on an exception an empty text with the error message; the success key is never
written. -/
def extract_from_pdf (conv : ConvOutcome) : DocResult :=
  match conv with
  | ConvOutcome.ok t => DocResult.mk none (pyStrip t) (some sPdf) none
  | ConvOutcome.exn m => DocResult.mk none [] (some sPdf) (some (msgPdfFail ++ m))

/-- DocumentConverter.extract_from_docx: on success the cleaned text the
oracle models, on an exception an empty text with the error message. -/
def extract_from_docx (conv : ConvOutcome) : DocResult :=
  match conv with
  | ConvOutcome.ok t => DocResult.mk none t (some sDocx) none
  | ConvOutcome.exn m => DocResult.mk none [] (some sDocx) (some (msgDocxFail ++ m))

def supported_formats : List Str := [".pdf".toList, ".docx".toList, ".doc".toList]
def extPdf : Str := ".pdf".toList
def extDocx : Str := ".docx".toList
def extDoc : Str := ".doc".toList

/-- DocumentConverter.extract_from_file: existence check, suffix check against
the supported formats, then dispatch on the lowered suffix; hasFile is the
filesystem oracle for this path. Failure dictionaries carry an error and an
empty text and, like every branch, no success key. -/
def extract_from_file (hasFile : Bool) (filepath : Str) (conv : ConvOutcome) :
    DocResult :=
  if !hasFile then
    DocResult.mk none [] none (some (msgFileNotFound ++ filepath))
  else if !(supported_formats.contains (pyLower (pySuffix filepath))) then
    DocResult.mk none [] none
      (some (msgUnsupPre ++ pyLower (pySuffix filepath) ++ msgUnsupPost))
  else if pyLower (pySuffix filepath) = extPdf then extract_from_pdf conv
  else if pyLower (pySuffix filepath) = extDocx ∨ pyLower (pySuffix filepath) = extDoc then
    extract_from_docx conv
  else DocResult.mk none [] none (some (msgNoHandlerPre ++ pyLower (pySuffix filepath)))

/-- Result dictionary of GroqResumeProcessor.process_resume, reduced to the
success flag, the error message and the extracted data (file_path, raw_text,
text_length and the metadata block are not modelled). -/
structure PRes where
  success : Bool
  error : Option Str
  extracted_data : Option JVal

def msgConvFailPre : Str := "Document conversion failed: ".toList
def msgUnknownError : Str := "Unknown error".toList
def msgTooShort : Str := "Extracted text is too short or empty".toList
def msgDataFailPre : Str := "Data extraction failed: ".toList
def msgUnexpectedPre : Str := "Unexpected error: ".toList
def reprKeyData : Str := "\x27data\x27".toList
def reprKeyError : Str := "\x27error\x27".toList

/-- GroqResumeProcessor.process_resume on an already-converted document: the
success check with its default of True when the key is missing, the
50-character minimum on the stripped text, then the remote extraction call.
The second component of the result instruments the embedding with the list of
texts sent to the remote extractor, so a call count is part of the model; the
JSON-saving step only writes a file and is not modelled. Direct subscripts of
the extraction envelope raise KeyError when the key is missing, which the
outer generic handler turns into an unexpected-error dictionary. -/
def process_resume (doc : DocResult) (extractor : Str → Envelope) :
    PRes × List Str :=
  if !(doc.success.getD true) then
    (PRes.mk false (some (msgConvFailPre ++ doc.error.getD msgUnknownError)) none, [])
  else
    let resume_text := doc.text
    if resume_text = [] ∨ (pyStrip resume_text).length < 50 then
      (PRes.mk false (some msgTooShort) none, [])
    else
      let er := extractor resume_text
      if er.success then
        match er.data with
        | some d => (PRes.mk true none (some d), [resume_text])
        | none =>
          (PRes.mk false (some (msgUnexpectedPre ++ reprKeyData)) none, [resume_text])
      else
        match er.error with
        | some m =>
          (PRes.mk false (some (msgDataFailPre ++ m)) none, [resume_text])
        | none =>
          (PRes.mk false (some (msgUnexpectedPre ++ reprKeyError)) none, [resume_text])

/-- Lexicographic order on character lists, the order in which Python sorts
the path strings of the batch runner. -/
def strLt : Str → Str → Bool
  | [], [] => false
  | [], _ :: _ => true
  | _ :: _, [] => false
  | a :: as, b :: bs => if a < b then true else if b < a then false else strLt as bs

/-- Insertion into a sorted list of strings. -/
def insertSorted (x : Str) : List Str → List Str
  | [] => [x]
  | y :: ys => if strLt y x then y :: insertSorted x ys else x :: y :: ys

/-- Python sorted() on a list of path strings. -/
def sortStrs (l : List Str) : List Str := l.foldr insertSorted []

/-- BatchProcessor.find_files: the glob results for each extension pattern
over the directory listing, concatenated and sorted; a missing directory is
the empty listing. -/
def find_files (listing : List Str) (exts : List Str) : List Str :=
  sortStrs ((exts.map (fun e => listing.filter (fun f => e.isSuffixOf f))).flatten)

def msgCvNotFoundPre : Str := "CV file not found: ".toList
def msgUnsupCvPre : Str := "Unsupported CV format: ".toList
def msgUnsupCvPost : Str := ". Use PDF or DOCX.".toList
def msgJobNotFoundPre : Str := "Job description file not found: ".toList

/-- ResumeCustomizationSystem.validate_inputs: the list of validation errors,
in source order; a job file with an unusual suffix only logs a warning and
adds no error. -/
def validate_inputs (hasFile : Str → Bool) (cv_file job_file : Str) : List Str :=
  (if !(hasFile cv_file) then [msgCvNotFoundPre ++ cv_file]
   else
     let cv_ext := pyLower (pySuffix cv_file)
     if !(supported_formats.contains cv_ext) then
       [msgUnsupCvPre ++ cv_ext ++ msgUnsupCvPost]
     else [])
  ++ (if !(hasFile job_file) then [msgJobNotFoundPre ++ job_file] else [])

/-- Result dictionary of ResumeCustomizationSystem.run, reduced to the keys
the batch runner reads: success, the singular error key of stage failures,
the plural errors key of validation failures, and the output path (job title,
company, candidate name and file info are not modelled). -/
structure RunResult where
  success : Bool
  error : Option Str
  errors : Option (List Str)
  output_file : Option Str

/-- ResumeCustomizationSystem.run: input validation, then the four remaining
stages, collapsed into the oracle rest, which supplies the run dictionary the
pipeline produces for a validated pair. A validation failure returns success
False with the error list under the plural errors key and no singular error
key. -/
def runPipeline (hasFile : Str → Bool) (rest : Str → Str → RunResult)
    (cv_file job_file : Str) : RunResult :=
  let errs := validate_inputs hasFile cv_file job_file
  if errs.isEmpty then rest cv_file job_file
  else RunResult.mk false none (some errs) none

/-- One entry of the batch results list: the outcome tag, the two source
paths, and the output path or error message (candidate, job title and company
of success entries are not modelled). -/
structure BatchRecord where
  status : Str
  cv_file : Str
  job_file : Str
  output_file : Option Str
  error : Option Str

/-- Outcome of one orchestrator invocation as the batch loop observes it: a
returned dictionary, or an exception that escaped the call. -/
inductive RunOutcome where
  | res (r : RunResult) : RunOutcome
  | exn (msg : Str) : RunOutcome

def sSuccess : Str := "success".toList
def sFailed : Str := "failed".toList
def sException : Str := "exception".toList

/-- Body of the inner batch loop for one (cv, job) combination: a success
record with the output path, a failed record whose message is the singular
error key with the Unknown error fallback, or an exception record. -/
def combo_record (cv job : Str) (o : RunOutcome) : BatchRecord :=
  match o with
  | RunOutcome.res r =>
    if r.success then BatchRecord.mk sSuccess cv job r.output_file none
    else BatchRecord.mk sFailed cv job none (some (r.error.getD msgUnknownError))
  | RunOutcome.exn m => BatchRecord.mk sException cv job none (some m)

/-- The nested batch loop: the sorted CV list outside, the sorted job list
inside, one record per combination in iteration order. -/
def batchRecords (runO : Str → Str → RunOutcome) (cv_files job_files : List Str) :
    List BatchRecord :=
  (cv_files.map (fun c => job_files.map (fun j => combo_record c j (runO c j)))).flatten

/-- The (cv, job) pairs the batch loop hands to the orchestrator, in order. -/
def batchInvocations (cv_files job_files : List Str) : List (Str × Str) :=
  (cv_files.map (fun c => job_files.map (fun j => (c, j)))).flatten

/-- Summary dictionary of BatchProcessor.process_batch (output_directory and
the printed progress are not modelled). -/
structure BatchSummary where
  success : Bool
  total_processed : Nat
  successful : Nat
  failed : Nat
  results : List BatchRecord

/-- Overall result of process_batch: an early error dictionary when either
file list is empty, else the summary. -/
inductive BatchOut where
  | err (msg : Str) : BatchOut
  | ok (s : BatchSummary) : BatchOut

def cvExtensions : List Str := [".pdf".toList, ".docx".toList, ".doc".toList]
def jobExtensions : List Str := [".txt".toList, ".md".toList]
def msgNoCv : Str := "No CV files found".toList
def msgNoJob : Str := "No job files found".toList

/-- BatchProcessor.process_batch: find and sort both file lists, fail early
when either is empty, then run every combination; the successful counter is
the number of success records and the failed counter counts both failed and
exception records, exactly as the two loop counters of the source do (the
message of the early error omits the directory path interpolation). -/
def process_batch (cvListing jobListing : List Str)
    (runO : Str → Str → RunOutcome) : BatchOut :=
  let cv_files := find_files cvListing cvExtensions
  let job_files := find_files jobListing jobExtensions
  if cv_files.isEmpty then BatchOut.err msgNoCv
  else if job_files.isEmpty then BatchOut.err msgNoJob
  else
    let recs := batchRecords runO cv_files job_files
    BatchOut.ok (BatchSummary.mk true (cv_files.length * job_files.length)
      (recs.countP (fun r => r.status == sSuccess))
      (recs.countP (fun r => r.status != sSuccess))
      recs)

/-- Modelled from the claim text of the extraction algorithm, step 1: when the
text contains a fenced block tagged as JSON, the content between the opening
fence plus tag and the next closing fence (the fenced content, trimmed, as the
testable properties of the specification put it). -/
def specStep1 (text : Str) : Option Str :=
  match findIn text jsonTag with
  | none => none
  | some i =>
    match findFrom text fence (i + jsonTag.length) with
    | none => none
    | some e => some (pyStrip (pySlice text (i + jsonTag.length) e))

/-- Step 2 of the claim: when the text contains any fenced block, its trimmed
content provided it starts with an opening brace and ends with a closing
brace. -/
def specStep2 (text : Str) : Option Str :=
  match findIn text fence with
  | none => none
  | some i =>
    match findFrom text fence (i + fence.length) with
    | none => none
    | some e =>
      let inner := pyStrip (pySlice text (i + fence.length) e)
      if [lbrace].isPrefixOf inner && [rbrace].isSuffixOf inner then some inner
      else none

/-- Step 3 of the claim: when a first opening brace and a last closing brace
both exist and the first precedes the last, the inclusive substring spanning
them. -/
def specStep3 (text : Str) : Option Str :=
  match findIn text [lbrace], rfindChar text rbrace with
  | some a, some b => if a < b then some (pySlice text a (b + 1)) else none
  | _, _ => none

/-- Step 4 of the claim: the trimmed whole text when it starts with an opening
brace and ends with a closing brace. -/
def specStep4 (text : Str) : Option Str :=
  let s := pyStrip text
  if [lbrace].isPrefixOf s && [rbrace].isSuffixOf s then some s else none

/-- Modelled from the claim text of the JSON-candidate extraction algorithm:
the four steps in priority order, first match wins, else nothing. -/
def specExtractJson (text : Str) : Option Str :=
  match specStep1 text with
  | some r => some r
  | none =>
    match specStep2 text with
    | some r => some r
    | none =>
      match specStep3 text with
      | some r => some r
      | none => specStep4 text

/-- Envelope invariant stated by the data model of the specification. -/
def envelopeInvariant (e : Envelope) : Prop :=
  (e.success = true → e.data.isSome ∧ e.error = none) ∧
  (e.success = false → e.error.isSome)

/-- The fully defaulted record the mapping produces once its two required
blocks are present but every optional key is absent. -/
def defaultMappedRecord : JVal :=
  JVal.jobj [
    (kPersonalInfo, JVal.jobj [(kName, JVal.jstr []), (kEmail, JVal.jstr []),
      (kPhone, JVal.jstr []), (kLocation, JVal.jstr []), (kLinkedin, JVal.jstr []),
      (kPortfolio, JVal.jstr [])]),
    (kProfessionalSummary, JVal.jstr []),
    (kCoreCompetencies, JVal.jarr []),
    (kProfessionalExperience, JVal.jarr []),
    (kEducation, JVal.jarr []),
    (kTechnicalSkillsOut, JVal.jobj [(kProgrammingLanguages, JVal.jarr []),
      (kFrameworksTools, JVal.jarr []), (kDatabases, JVal.jarr []),
      (kOtherTechnical, JVal.jarr [])]),
    (kProjects, JVal.jarr []),
    (kCertifications, JVal.jarr [])]

/-- Values of a fully populated personal_details block, one distinct marker
string per subfield of the extraction schema. -/
def vNm : Str := "NAME-1".toList
def vEm : Str := "EMAIL-1".toList
def vPh : Str := "PHONE-1".toList
def vAd : Str := "ADDR-1".toList
def vLi : Str := "LINK-1".toList
def vGh : Str := "GITHUB-1".toList
def vWb : Str := "WEB-1".toList

/-- A personal_details block populated in every subfield of the extraction
schema, the github subfield included. -/
def pdFull : List (Str × JVal) :=
  [(kName, JVal.jstr vNm), (kEmail, JVal.jstr vEm), (kPhone, JVal.jstr vPh),
   (kAddress, JVal.jstr vAd), (kLinkedin, JVal.jstr vLi),
   (kGithub, JVal.jstr vGh), (kWebsite, JVal.jstr vWb)]

/-- Fields of a raw resume object with the fully populated personal_details
block, an empty skills block and no work experience. -/
def fsFull : List (Str × JVal) :=
  [(kPersonalDetails, JVal.jobj pdFull), (kSkills, JVal.jobj []),
    (kWorkExperience, JVal.jarr [])]

/-- The raw resume object over those fields. -/
def cvFull : JVal := JVal.jobj fsFull

/-- The document-conversion result for a missing file. -/
def pathX : Str := "x.pdf".toList

/-- Conversion result of a file that does not exist. -/
def missingDoc : DocResult := extract_from_file false pathX (ConvOutcome.ok [])

/-- A trivially succeeding extraction oracle, used to show the extractor is
not consulted on short input. -/
def extOracle0 : Str → Envelope := fun _ => Envelope.mk true (some JVal.jnull) none none

/-- Batch scenario paths: two CVs and three jobs. -/
def cvA : Str := "a.pdf".toList
def cvB : Str := "b.pdf".toList
def jb1 : Str := "j1.txt".toList
def jb2 : Str := "j2.txt".toList
def jb3 : Str := "j3.txt".toList

/-- Filesystem of the batch scenario: every file exists except the second job
file. -/
def exC7 (p : Str) : Bool := !(p == jb2)

/-- Orchestrator of the batch scenario: the embedded run pipeline over the
scenario filesystem, with the post-validation stages supplied by rest; no
invocation raises. -/
def runC7 (rest : Str → Str → RunResult) (c j : Str) : RunOutcome :=
  RunOutcome.res (runPipeline exC7 rest c j)

/-- A fixed post-validation outcome used to instantiate scenario theorems. -/
def restOk : Str → Str → RunResult :=
  fun _ _ => RunResult.mk true none none (some ("out.docx".toList))

/-- Extractor-input strings used by concrete evaluations: a fenced tagged
block with no braces at all. -/
def c5Input : Str := "```json ok```".toList

/-- An input holding a brace pair outside an untagged fenced block that itself
holds a brace-delimited candidate. -/
def c10Input : Str := "\x7ba\x7d ```\x7bb\x7d``` x".toList

/-- Closed form of the record the mapping builds from an object whose
personal_details and skills entries are the objects pdf and skf and whose
work_experience entry is a list of objects. -/
def mappedRecord (fs pdf skf : List (Str × JVal))
    (eobjs : List (List (Str × JVal))) : JVal :=
  JVal.jobj [
    (kPersonalInfo, JVal.jobj [
      (kName, (alookup pdf kName).getD (JVal.jstr [])),
      (kEmail, (alookup pdf kEmail).getD (JVal.jstr [])),
      (kPhone, (alookup pdf kPhone).getD (JVal.jstr [])),
      (kLocation, (alookup pdf kAddress).getD (JVal.jstr [])),
      (kLinkedin, (alookup pdf kLinkedin).getD (JVal.jstr [])),
      (kPortfolio, (alookup pdf kWebsite).getD (JVal.jstr []))]),
    (kProfessionalSummary, (alookup fs kSummary).getD (JVal.jstr [])),
    (kCoreCompetencies, (alookup skf kTechnicalSkills).getD (JVal.jarr [])),
    (kProfessionalExperience, JVal.jarr (eobjs.map mapExpObj)),
    (kEducation, (alookup fs kEducation).getD (JVal.jarr [])),
    (kTechnicalSkillsOut, JVal.jobj [
      (kProgrammingLanguages, JVal.jarr []),
      (kFrameworksTools, JVal.jarr []),
      (kDatabases, JVal.jarr []),
      (kOtherTechnical, (alookup skf kTechnicalSkills).getD (JVal.jarr []))]),
    (kProjects, (alookup fs kProjects).getD (JVal.jarr [])),
    (kCertifications, (alookup fs kCertifications).getD (JVal.jarr []))]

theorem findIn_get {hay : Str} {c : Char} {i : Nat}
    (h : findIn hay [c] = some i) : hay.get? i = some c := by
  induction hay generalizing i with
  | nil => simp [findIn] at h
  | cons x rest ih =>
    rw [findIn] at h
    by_cases hp : [c].isPrefixOf (x :: rest)
    · simp [hp] at h
      have hx : c = x := by simpa [List.isPrefixOf] using hp
      subst h
      simp [List.get?, hx]
    · simp [hp] at h
      obtain ⟨j, hj, hji⟩ := h
      subst hji
      simpa [List.get?] using ih hj

theorem rfindChar_get {hay : Str} {c : Char} {i : Nat}
    (h : rfindChar hay c = some i) : hay.get? i = some c := by
  induction hay generalizing i with
  | nil => simp [rfindChar] at h
  | cons x rest ih =>
    rw [rfindChar] at h
    cases hr : rfindChar rest c with
    | some j =>
      rw [hr] at h
      simp at h
      subst h
      simpa [List.get?] using ih hr
    | none =>
      rw [hr] at h
      by_cases hx : x = c
      · simp [hx] at h
        subst h
        simp [List.get?, hx]
      · simp [hx] at h

theorem mem_of_get? {l : Str} {i : Nat} {c : Char} (h : l.get? i = some c) : c ∈ l :=
  List.get?_mem h

theorem findIn_char_none {hay : Str} {c : Char} (h : c ∉ hay) :
    findIn hay [c] = none := by
  cases hf : findIn hay [c] with
  | none => rfl
  | some i => exact absurd (mem_of_get? (findIn_get hf)) h

theorem rfindChar_none {hay : Str} {c : Char} (h : c ∉ hay) :
    rfindChar hay c = none := by
  cases hf : rfindChar hay c with
  | none => rfl
  | some i => exact absurd (mem_of_get? (rfindChar_get hf)) h

theorem mem_of_mem_pyStrip {s : Str} {c : Char} (h : c ∈ pyStrip s) : c ∈ s := by
  unfold pyStrip at h
  rw [List.mem_reverse] at h
  have h2 := (List.dropWhile_sublist _).subset h
  rw [List.mem_reverse] at h2
  exact (List.dropWhile_sublist _).subset h2

theorem mem_of_mem_pySlice {s : Str} {a b : Nat} {c : Char}
    (h : c ∈ pySlice s a b) : c ∈ s := by
  unfold pySlice at h
  exact List.drop_subset _ _ (List.take_subset _ _ h)

theorem mem_of_prefix_single {c : Char} {l : Str} (h : [c] <+: l) : c ∈ l :=
  h.sublist.subset (by simp)

theorem mem_of_suffix_single {c : Char} {l : Str} (h : [c] <:+ l) : c ∈ l :=
  h.sublist.subset (by simp)

theorem pat2_none_of_no_lbrace {content : Str} (h : lbrace ∉ content) :
    pat2 content = none := by
  unfold pat2
  cases h1 : findIn content fence with
  | none => rfl
  | some i =>
    cases h2 : findFrom content fence (i + 3) with
    | none => simp [h2]
    | some e =>
      have hnp : ¬([lbrace] <+: pyStrip (pySlice content (i + 3) e)) := fun hp =>
        h (mem_of_mem_pySlice (mem_of_mem_pyStrip (mem_of_prefix_single hp)))
      simp [h2, hnp]

theorem pat3_none_of_no_lbrace {content : Str} (h : lbrace ∉ content) :
    pat3 content = none := by
  unfold pat3
  rw [findIn_char_none h]

theorem pat4_none_of_no_lbrace {content : Str} (h : lbrace ∉ content) :
    pat4 content = none := by
  unfold pat4
  have hnp : ¬([lbrace] <+: pyStrip content) := fun hp =>
    h (mem_of_mem_pyStrip (mem_of_prefix_single hp))
  simp [hnp]

theorem specStep1_eq_pat1 (c : Str) : specStep1 c = pat1 c := rfl

theorem specStep2_eq_pat2 (c : Str) : specStep2 c = pat2 c := rfl

theorem specStep4_eq_pat4 (c : Str) : specStep4 c = pat4 c := rfl

theorem specStep3_eq_pat3 (c : Str) : specStep3 c = pat3 c := by
  unfold specStep3 pat3
  cases hf : findIn c [lbrace] with
  | none => rfl
  | some a =>
    cases hr : rfindChar c rbrace with
    | none => rfl
    | some b =>
      have ha := findIn_get hf
      have hb := rfindChar_get hr
      have hab : a ≠ b := by
        intro hEq
        subst hEq
        rw [ha] at hb
        have hcc : lbrace = rbrace := by simpa using hb
        exact absurd hcc (by decide)
      simp only []
      rcases Nat.lt_trichotomy a b with h | h | h
      · have h1 : b + 1 > a := by omega
        rw [if_pos h, if_pos h1]
      · exact absurd h hab
      · have h1 : ¬(a < b) := by omega
        have h2 : ¬(b + 1 > a) := by omega
        rw [if_neg h1, if_neg h2]

theorem mapExp_jobj (efs : List (Str × JVal)) :
    mapExp (JVal.jobj efs) = some (mapExpObj efs) := rfl

theorem mapExps_map_jobj (l : List (List (Str × JVal))) :
    mapExps (l.map JVal.jobj) = some (l.map mapExpObj) := by
  induction l with
  | nil => rfl
  | cons e rest ih => simp [List.map, mapExps, mapExp_jobj, ih]

theorem mapResume_jobj_eq (fs pdf skf : List (Str × JVal))
    (eobjs : List (List (Str × JVal)))
    (hpd : alookup fs kPersonalDetails = some (JVal.jobj pdf))
    (hsk : alookup fs kSkills = some (JVal.jobj skf))
    (hwe : alookup fs kWorkExperience = some (JVal.jarr (eobjs.map JVal.jobj))) :
    mapResume (JVal.jobj fs) = some (mappedRecord fs pdf skf eobjs) := by
  simp [mapResume, dindex, dget, hpd, hsk, hwe, pyIter, mapExps_map_jobj,
    mappedRecord]

theorem combo_record_cv (c j : Str) (o : RunOutcome) :
    (combo_record c j o).cv_file = c := by
  cases o with
  | res r =>
    unfold combo_record
    by_cases hs : r.success <;> simp [hs]
  | exn m => rfl

theorem combo_record_job (c j : Str) (o : RunOutcome) :
    (combo_record c j o).job_file = j := by
  cases o with
  | res r =>
    unfold combo_record
    by_cases hs : r.success <;> simp [hs]
  | exn m => rfl

theorem combo_record_status (c j : Str) (o : RunOutcome) :
    (combo_record c j o).status = sSuccess ∨ (combo_record c j o).status = sFailed ∨
      (combo_record c j o).status = sException := by
  cases o with
  | res r =>
    unfold combo_record
    by_cases hs : r.success <;> simp [hs]
  | exn m => simp [combo_record]

theorem innerRow_pairs (runO : Str → Str → RunOutcome) (c : Str) (jobs : List Str) :
    (jobs.map (fun j => combo_record c j (runO c j))).map
      (fun r => (r.cv_file, r.job_file)) = jobs.map (fun j => (c, j)) := by
  induction jobs with
  | nil => rfl
  | cons j js ih => simp [List.map, ih, combo_record_cv, combo_record_job]

theorem batchRecords_pairs (runO : Str → Str → RunOutcome) (cvs jobs : List Str) :
    (batchRecords runO cvs jobs).map (fun r => (r.cv_file, r.job_file)) =
      batchInvocations cvs jobs := by
  induction cvs with
  | nil => rfl
  | cons c cs ih =>
    simp only [batchRecords, batchInvocations, List.map, List.flatten,
      List.map_append] at *
    rw [innerRow_pairs, ih]

theorem batchRecords_length (runO : Str → Str → RunOutcome) (cvs jobs : List Str) :
    (batchRecords runO cvs jobs).length = cvs.length * jobs.length := by
  induction cvs with
  | nil => simp [batchRecords]
  | cons c cs ih =>
    simp only [batchRecords, List.map, List.flatten, List.length_append,
      List.length_map, List.length_cons] at *
    rw [ih]
    ring

theorem batchRecords_statuses (runO : Str → Str → RunOutcome) (cvs jobs : List Str) :
    ∀ r ∈ batchRecords runO cvs jobs,
      r.status = sSuccess ∨ r.status = sFailed ∨ r.status = sException := by
  intro r hr
  simp only [batchRecords, List.mem_flatten, List.mem_map] at hr
  obtain ⟨row, ⟨c, _, hrow⟩, hrmem⟩ := hr
  subst hrow
  simp only [List.mem_map] at hrmem
  obtain ⟨j, _, hrec⟩ := hrmem
  subst hrec
  exact combo_record_status c j (runO c j)

theorem strLt_nil_right (z : Str) : strLt z [] = false := by
  cases z <;> rfl

theorem strLt_asymm : ∀ x y : Str, strLt x y = true → strLt y x = false
  | [], [], h => by simp [strLt] at h
  | [], _ :: _, _ => by simp [strLt]
  | _ :: _, [], h => by simp [strLt] at h
  | a :: as, b :: bs, h => by
    rw [strLt] at h
    rw [strLt]
    by_cases hab : a < b
    · have hba : ¬(b < a) := lt_asymm hab
      simp [hab, hba]
    · by_cases hba : b < a
      · simp [hab, hba] at h
      · simp [hab, hba] at h ⊢
        exact strLt_asymm as bs h

theorem strLt_false_trans : ∀ x y z : Str,
    strLt y x = false → strLt z y = false → strLt z x = false
  | [], y, z, h1, h2 => strLt_nil_right z
  | a :: as, y, z, h1, h2 => by
    cases y with
    | nil => simp [strLt] at h1
    | cons b bs =>
      cases z with
      | nil => simp [strLt] at h2
      | cons c cs =>
        rw [strLt] at h1 h2 ⊢
        by_cases hba : b < a
        · rw [if_pos hba] at h1
          simp at h1
        · rw [if_neg hba] at h1
          by_cases hcb : c < b
          · rw [if_pos hcb] at h2
            simp at h2
          · rw [if_neg hcb] at h2
            have hab : a ≤ b := le_of_not_lt hba
            have hbc : b ≤ c := le_of_not_lt hcb
            have hca : ¬(c < a) := not_lt_of_ge (le_trans hab hbc)
            rw [if_neg hca]
            by_cases hac : a < c
            · rw [if_pos hac]
            · rw [if_neg hac]
              have hnab : ¬(a < b) := fun hh => hac (lt_of_lt_of_le hh hbc)
              have hnbc : ¬(b < c) := fun hh => hac (lt_of_le_of_lt hab hh)
              rw [if_neg hnab] at h1
              rw [if_neg hnbc] at h2
              exact strLt_false_trans as bs cs h1 h2

theorem mem_insertSorted {x z : Str} : ∀ l : List Str,
    z ∈ insertSorted x l → z = x ∨ z ∈ l
  | [], h => Or.inl (by simpa [insertSorted] using h)
  | y :: ys, h => by
    rw [insertSorted] at h
    by_cases hc : strLt y x
    · rw [if_pos hc] at h
      rcases List.mem_cons.mp h with h | h
      · exact Or.inr (by simp [h])
      · rcases mem_insertSorted ys h with h | h
        · exact Or.inl h
        · exact Or.inr (List.mem_cons_of_mem _ h)
    · rw [if_neg hc] at h
      rcases List.mem_cons.mp h with h | h
      · exact Or.inl h
      · exact Or.inr h

theorem pairwise_insertSorted (x : Str) : ∀ l : List Str,
    l.Pairwise (fun a b => strLt b a = false) →
    (insertSorted x l).Pairwise (fun a b => strLt b a = false)
  | [], _ => by simp [insertSorted]
  | y :: ys, h => by
    rw [insertSorted]
    rw [List.pairwise_cons] at h
    obtain ⟨hy, hys⟩ := h
    by_cases hc : strLt y x
    · rw [if_pos hc]
      rw [List.pairwise_cons]
      constructor
      · intro z hz
        rcases mem_insertSorted ys hz with hzx | hzy
        · subst hzx
          exact strLt_asymm y z hc
        · exact hy z hzy
      · exact pairwise_insertSorted x ys hys
    · rw [if_neg hc]
      rw [List.pairwise_cons]
      constructor
      · intro z hz
        rcases List.mem_cons.mp hz with hzy | hzys
        · subst hzy
          simpa using hc
        · have h1 : strLt z y = false := hy z hzys
          have h2 : strLt y x = false := by simpa using hc
          exact strLt_false_trans x y z h2 h1
      · rw [List.pairwise_cons]
        exact ⟨hy, hys⟩

theorem pairwise_sortStrs (l : List Str) :
    (sortStrs l).Pairwise (fun a b => strLt b a = false) := by
  induction l with
  | nil => simp [sortStrs]
  | cons x xs ih => exact pairwise_insertSorted x (sortStrs xs) ih

theorem find_files_sorted (listing exts : List Str) :
    (find_files listing exts).Pairwise (fun a b => strLt b a = false) :=
  pairwise_sortStrs _

theorem extract_from_file_success_none (hasFile : Bool) (fp : Str)
    (conv : ConvOutcome) : (extract_from_file hasFile fp conv).success = none := by
  unfold extract_from_file extract_from_pdf extract_from_docx
  repeat' split
  all_goals rfl

theorem extract_from_file_error_text (hasFile : Bool) (fp : Str)
    (conv : ConvOutcome)
    (herr : (extract_from_file hasFile fp conv).error.isSome) :
    (extract_from_file hasFile fp conv).text = [] := by
  unfold extract_from_file extract_from_pdf extract_from_docx at herr ⊢
  cases conv with
  | ok t =>
    by_cases h0 : (!hasFile) = true
    · rw [if_pos h0]
    · rw [if_neg h0] at herr ⊢
      by_cases h1 : (!supported_formats.contains (pyLower (pySuffix fp))) = true
      · rw [if_pos h1]
      · rw [if_neg h1] at herr ⊢
        by_cases h2 : pyLower (pySuffix fp) = extPdf
        · rw [if_pos h2] at herr
          simp at herr
        · rw [if_neg h2] at herr ⊢
          by_cases h3 : pyLower (pySuffix fp) = extDocx ∨ pyLower (pySuffix fp) = extDoc
          · rw [if_pos h3] at herr
            simp at herr
          · rw [if_neg h3]
  | exn m =>
    by_cases h0 : (!hasFile) = true
    · rw [if_pos h0]
    · rw [if_neg h0]
      by_cases h1 : (!supported_formats.contains (pyLower (pySuffix fp))) = true
      · rw [if_pos h1]
      · rw [if_neg h1]
        by_cases h2 : pyLower (pySuffix fp) = extPdf
        · rw [if_pos h2]
        · rw [if_neg h2]
          by_cases h3 : pyLower (pySuffix fp) = extDocx ∨ pyLower (pySuffix fp) = extDoc
          · rw [if_pos h3]
          · rw [if_neg h3]

theorem process_resume_too_short (doc : DocResult) (ex : Str → Envelope)
    (hs : doc.success = none) (hlen : (pyStrip doc.text).length < 50) :
    process_resume doc ex = (PRes.mk false (some msgTooShort) none, []) := by
  unfold process_resume
  rw [hs]
  simp [hlen]

/-- Claim C1, counterexample: the schema mapping is not total over missing-key
inputs. Mapping the object with zero recognized keys raises a KeyError on the
direct personal_details subscript (modelled as none) instead of returning the
defaulted record the claim promises; no MalformedInput signalling exists. -/
theorem claim_c1_counterexample : mapResume (JVal.jobj []) = none := rfl

/-- Claim C1, amended: the mapping raises whenever the personal_details key is
missing; once personal_details and skills are present as objects, every other
recognized key may be absent and the mapping returns the record with every
remaining list field defaulted to the empty list and every scalar field
defaulted to the empty string. -/
theorem claim_c1_schema_mapper_totality :
    (∀ fs, alookup fs kPersonalDetails = none → mapResume (JVal.jobj fs) = none) ∧
    (∀ fs pdf skf,
      alookup fs kPersonalDetails = some (JVal.jobj pdf) →
      alookup fs kSkills = some (JVal.jobj skf) →
      alookup pdf kName = none → alookup pdf kEmail = none →
      alookup pdf kPhone = none → alookup pdf kAddress = none →
      alookup pdf kLinkedin = none → alookup pdf kWebsite = none →
      alookup skf kTechnicalSkills = none →
      alookup fs kSummary = none → alookup fs kEducation = none →
      alookup fs kProjects = none → alookup fs kCertifications = none →
      alookup fs kWorkExperience = none →
      mapResume (JVal.jobj fs) = some defaultMappedRecord) := by
  constructor
  · intro fs h
    simp [mapResume, dindex, h]
  · intro fs pdf skf hpd hsk hna he hp ha hli hwb hts hsum hedu hpro hcer hwe
    simp [mapResume, dindex, dget, hpd, hsk, hna, he, hp, ha, hli, hwb, hts,
      hsum, hedu, hpro, hcer, hwe, pyIter, mapExps, defaultMappedRecord]

/-- Witness for the amended claim C1 on concrete objects. -/
theorem claim_c1_witness :
    mapResume (JVal.jobj [(kPersonalDetails, JVal.jobj []), (kSkills, JVal.jobj [])]) =
      some defaultMappedRecord ∧
    mapResume (JVal.jobj [(kSkills, JVal.jobj [])]) = none :=
  ⟨claim_c1_schema_mapper_totality.2
      [(kPersonalDetails, JVal.jobj []), (kSkills, JVal.jobj [])] [] []
      rfl rfl rfl rfl rfl rfl rfl rfl rfl rfl rfl rfl rfl rfl,
    claim_c1_schema_mapper_totality.1 [(kSkills, JVal.jobj [])] rfl⟩

/-- Claim C2: the groq JSON-candidate extractor applies exactly the stated
priority order, first match wins: a JSON-tagged fenced block, then any fenced
block whose trimmed content is brace-delimited, then the span from the first
opening brace to the last closing brace, then the trimmed whole text when
brace-delimited, else nothing (encoded by the empty string). The right-hand
side is the step-by-step description modelled from the claim text. -/
theorem claim_c2_extraction_priority (content : Str) :
    groqExtractJson content = (specExtractJson content).getD [] := by
  unfold groqExtractJson specExtractJson
  rw [specStep1_eq_pat1, specStep2_eq_pat2, specStep3_eq_pat3, specStep4_eq_pat4]
  cases h1 : pat1 content <;> cases h2 : pat2 content <;> cases h3 : pat3 content <;>
    cases h4 : pat4 content <;> simp

/-- Claim C3, counterexample: when document conversion fails (here, a missing
file), the conversion dictionary carries an error but never a success key, so
the fail-fast check of the orchestrator does not fire; the orchestrator stops
because the empty text fails the length gate, and its failure message is the
too-short message, not the conversion message, which is lost. -/
theorem claim_c3_counterexample :
    missingDoc.error = some (msgFileNotFound ++ pathX) ∧
    missingDoc.success = none ∧
    (process_resume missingDoc extOracle0).2 = [] ∧
    (process_resume missingDoc extOracle0).1.success = false ∧
    (process_resume missingDoc extOracle0).1.error = some msgTooShort ∧
    msgTooShort ≠ msgFileNotFound ++ pathX ∧
    containsSub msgTooShort (msgFileNotFound ++ pathX) = false := by decide

/-- Claim C3, amended: every failing conversion result carries an error with
an empty text and no success key; the orchestrator then attempts no extraction
call (and hence none of the later stages), but its failure envelope carries
the message about too-short extracted text rather than the conversion error. -/
theorem claim_c3_conversion_failure (hasFile : Bool) (fp : Str)
    (conv : ConvOutcome) (ex : Str → Envelope)
    (herr : (extract_from_file hasFile fp conv).error.isSome) :
    (extract_from_file hasFile fp conv).success = none ∧
    (extract_from_file hasFile fp conv).text = [] ∧
    process_resume (extract_from_file hasFile fp conv) ex =
      (PRes.mk false (some msgTooShort) none, []) := by
  have h1 := extract_from_file_success_none hasFile fp conv
  have h2 := extract_from_file_error_text hasFile fp conv herr
  refine ⟨h1, h2, ?_⟩
  apply process_resume_too_short _ _ h1
  rw [h2]
  decide

/-- Witness for the amended claim C3 at a missing file. -/
theorem claim_c3_witness :
    (extract_from_file false pathX (ConvOutcome.ok [])).error.isSome = true ∧
    ((extract_from_file false pathX (ConvOutcome.ok [])).success = none ∧
      (extract_from_file false pathX (ConvOutcome.ok [])).text = [] ∧
      process_resume (extract_from_file false pathX (ConvOutcome.ok [])) extOracle0 =
        (PRes.mk false (some msgTooShort) none, [])) :=
  ⟨by decide,
    claim_c3_conversion_failure false pathX (ConvOutcome.ok []) extOracle0 (by decide)⟩

/-- Claim C4, counterexample: on a personal_details block that is fully
populated in the sense of the extraction schema of this repository, which
includes a github subfield, the mapped personal_info block holds exactly six
values and the github value is none of them: the mapping loses that field, so
the no-data-loss reading fails. Address and website do arrive as location and
portfolio. -/
theorem claim_c4_counterexample :
    alookup pdFull kGithub = some (JVal.jstr vGh) ∧
    (mapResume cvFull).bind (fun r => dindex r kPersonalInfo) =
      some (JVal.jobj [(kName, JVal.jstr vNm), (kEmail, JVal.jstr vEm),
        (kPhone, JVal.jstr vPh), (kLocation, JVal.jstr vAd),
        (kLinkedin, JVal.jstr vLi), (kPortfolio, JVal.jstr vWb)]) ∧
    vGh ∉ [vNm, vEm, vPh, vAd, vLi, vWb] :=
  ⟨rfl, rfl, by decide⟩

/-- Claim C4, amended: for a raw object whose personal_details and skills are
objects and whose work_experience is a list of objects, the mapping succeeds
and produces a personal_info block with exactly the six mapped subfields, the
raw address appearing as location and the raw website as portfolio (github is
dropped); the professional_experience list maps the raw entries in order and
count, and each mapped entry has duration equal to start_date and end_date
joined by a spaced dash and achievements equal to the one-element list holding
the description. -/
theorem claim_c4_round_trip (fs pdf skf : List (Str × JVal))
    (eobjs : List (List (Str × JVal))) (av wv : Str)
    (hpd : alookup fs kPersonalDetails = some (JVal.jobj pdf))
    (hsk : alookup fs kSkills = some (JVal.jobj skf))
    (hwe : alookup fs kWorkExperience = some (JVal.jarr (eobjs.map JVal.jobj)))
    (haddr : alookup pdf kAddress = some (JVal.jstr av))
    (hweb : alookup pdf kWebsite = some (JVal.jstr wv)) :
    mapResume (JVal.jobj fs) = some (mappedRecord fs pdf skf eobjs) ∧
    dindex (mappedRecord fs pdf skf eobjs) kPersonalInfo =
      some (JVal.jobj [
        (kName, (alookup pdf kName).getD (JVal.jstr [])),
        (kEmail, (alookup pdf kEmail).getD (JVal.jstr [])),
        (kPhone, (alookup pdf kPhone).getD (JVal.jstr [])),
        (kLocation, (alookup pdf kAddress).getD (JVal.jstr [])),
        (kLinkedin, (alookup pdf kLinkedin).getD (JVal.jstr [])),
        (kPortfolio, (alookup pdf kWebsite).getD (JVal.jstr []))]) ∧
    (alookup pdf kAddress).getD (JVal.jstr []) = JVal.jstr av ∧
    (alookup pdf kWebsite).getD (JVal.jstr []) = JVal.jstr wv ∧
    dindex (mappedRecord fs pdf skf eobjs) kProfessionalExperience =
      some (JVal.jarr (eobjs.map mapExpObj)) ∧
    (eobjs.map mapExpObj).length = eobjs.length ∧
    (∀ efs sd ed ds, alookup efs kStartDate = some (JVal.jstr sd) →
      alookup efs kEndDate = some (JVal.jstr ed) →
      alookup efs kDescription = some (JVal.jstr ds) →
      dindex (mapExpObj efs) kDuration = some (JVal.jstr (sd ++ sepDash ++ ed)) ∧
      dindex (mapExpObj efs) kAchievements = some (JVal.jarr [JVal.jstr ds])) := by
  refine ⟨mapResume_jobj_eq fs pdf skf eobjs hpd hsk hwe, rfl, ?_, ?_, rfl, ?_, ?_⟩
  · rw [haddr]
    rfl
  · rw [hweb]
    rfl
  · exact List.length_map _ _
  · intro efs sd ed ds hsd hed hds
    constructor
    · have base : dindex (mapExpObj efs) kDuration =
          some (JVal.jstr (pyStr ((alookup efs kStartDate).getD (JVal.jstr [])) ++
            sepDash ++ pyStr ((alookup efs kEndDate).getD (JVal.jstr [])))) := rfl
      rw [base, hsd, hed]
      rfl
    · have base : dindex (mapExpObj efs) kAchievements =
          some (JVal.jarr [(alookup efs kDescription).getD (JVal.jstr [])]) := rfl
      rw [base, hds]
      rfl

/-- Witness for the amended claim C4 at the fully populated concrete object. -/
theorem claim_c4_witness :
    mapResume cvFull = some (mappedRecord fsFull pdFull [] []) :=
  (claim_c4_round_trip fsFull pdFull [] [] vAd vWb rfl rfl rfl rfl rfl).1

/-- Claim C5, counterexample: an input with no brace characters at all but
with a JSON-tagged fenced block makes the extractors return the fenced
content, not nothing. -/
theorem claim_c5_counterexample :
    lbrace ∉ c5Input ∧ rbrace ∉ c5Input ∧
      groqExtractJson c5Input = ("ok".toList) ∧
      jobExtractJson c5Input = some ("ok".toList) := by decide

/-- Claim C5, amended: on any input with no opening brace, no closing brace,
and no complete JSON-tagged fenced block, all three extractors return
nothing. -/
theorem claim_c5_no_brace_no_candidate (content : Str) (h1 : lbrace ∉ content)
    (_h2 : rbrace ∉ content) (h3 : pat1 content = none) :
    groqExtractJson content = [] ∧ jobExtractJson content = none ∧
      genExtractJson content = [] := by
  have p2 := pat2_none_of_no_lbrace h1
  have p3 := pat3_none_of_no_lbrace h1
  have p4 := pat4_none_of_no_lbrace h1
  unfold groqExtractJson jobExtractJson genExtractJson
  rw [h3, p2, p3, p4]
  exact ⟨rfl, rfl, rfl⟩

/-- Witness for the amended claim C5 at a plain word. -/
theorem claim_c5_witness :
    groqExtractJson ("hello".toList) = [] ∧
      jobExtractJson ("hello".toList) = none ∧
      genExtractJson ("hello".toList) = [] :=
  claim_c5_no_brace_no_candidate ("hello".toList) (by decide) (by decide) (by decide)

/-- Claim C6: every remote-call stage returns an envelope in which success
implies the structured payload is present and the error absent, and failure
implies the error is present, over every credential, JSON-decoding outcome
and network outcome. -/
theorem claim_c6_envelope_invariant :
    (∀ k loads net, envelopeInvariant (extract_with_groq k loads net)) ∧
    (∀ t k loads net, envelopeInvariant (parse_job_description t k loads net)) ∧
    (∀ k loads net, envelopeInvariant (tailor_resume k loads net)) := by
  refine ⟨fun k loads net => ?_, fun t k loads net => ?_, fun k loads net => ?_⟩
  · unfold extract_with_groq envelopeInvariant
    repeat' split
    all_goals simp
  · unfold parse_job_description envelopeInvariant
    repeat' split
    all_goals simp
  · unfold tailor_resume envelopeInvariant
    repeat' split
    all_goals simp

/-- Witness for claim C6 at one concrete outcome of each stage. -/
theorem claim_c6_witness :
    envelopeInvariant (extract_with_groq placeholderKey
      (fun _ => Except.error []) NetOutcome.timeout) ∧
    envelopeInvariant (parse_job_description [] placeholderKey
      (fun _ => Except.error []) NetOutcome.timeout) ∧
    envelopeInvariant (tailor_resume placeholderKey
      (fun _ => Except.error []) NetOutcome.timeout) :=
  ⟨claim_c6_envelope_invariant.1 placeholderKey (fun _ => Except.error [])
      NetOutcome.timeout,
    claim_c6_envelope_invariant.2.1 [] placeholderKey (fun _ => Except.error [])
      NetOutcome.timeout,
    claim_c6_envelope_invariant.2.2 placeholderKey (fun _ => Except.error [])
      NetOutcome.timeout⟩

/-- Claim C7, counterexample: in the 2-by-3 batch with the second job file
missing, all six combinations are attempted and the two combinations with the
missing job are recorded as failed, but their recorded error is the fallback
Unknown error, because the orchestrator returns its validation message under
the plural errors key while the batch loop reads the singular error key; the
recorded message does not name the missing file. -/
theorem claim_c7_counterexample :
    process_batch [cvA, cvB] [jb1, jb2, jb3] (runC7 restOk) = BatchOut.ok
      (BatchSummary.mk true 6 4 2 [
        BatchRecord.mk sSuccess cvA jb1 (some ("out.docx".toList)) none,
        BatchRecord.mk sFailed cvA jb2 none (some msgUnknownError),
        BatchRecord.mk sSuccess cvA jb3 (some ("out.docx".toList)) none,
        BatchRecord.mk sSuccess cvB jb1 (some ("out.docx".toList)) none,
        BatchRecord.mk sFailed cvB jb2 none (some msgUnknownError),
        BatchRecord.mk sSuccess cvB jb3 (some ("out.docx".toList)) none]) ∧
    containsSub msgUnknownError jb2 = false :=
  ⟨rfl, by decide⟩

/-- Claim C7, amended: in the 2-by-3 batch with the second job file missing,
whatever the validated pipeline stages do, all six combinations are attempted
in order; the two combinations with the missing job are recorded as failed
with the error Unknown error (the validation message is dropped), and the
remaining four are handed to the post-validation stages independently. -/
theorem claim_c7_batch_scenario (rest : Str → Str → RunResult) :
    process_batch [cvA, cvB] [jb1, jb2, jb3] (runC7 rest) = BatchOut.ok
      (BatchSummary.mk true 6
        ((batchRecords (runC7 rest) [cvA, cvB] [jb1, jb2, jb3]).countP
          (fun r => r.status == sSuccess))
        ((batchRecords (runC7 rest) [cvA, cvB] [jb1, jb2, jb3]).countP
          (fun r => r.status != sSuccess))
        [combo_record cvA jb1 (RunOutcome.res (rest cvA jb1)),
         BatchRecord.mk sFailed cvA jb2 none (some msgUnknownError),
         combo_record cvA jb3 (RunOutcome.res (rest cvA jb3)),
         combo_record cvB jb1 (RunOutcome.res (rest cvB jb1)),
         BatchRecord.mk sFailed cvB jb2 none (some msgUnknownError),
         combo_record cvB jb3 (RunOutcome.res (rest cvB jb3))]) := rfl

/-- Claim C8: with nonempty file lists, the batch runner returns the summary
whose results are exactly one record per combination, produced by iterating
the found CV list with an inner loop over the found job list, both sorted;
the record pairs enumerate the invocations in order, their number is the
product of the list lengths, and every record carries exactly one of the
three outcome tags. -/
theorem claim_c8_batch_contract (cvL jobL : List Str)
    (runO : Str → Str → RunOutcome)
    (h1 : find_files cvL cvExtensions ≠ [])
    (h2 : find_files jobL jobExtensions ≠ []) :
    process_batch cvL jobL runO = BatchOut.ok (BatchSummary.mk true
      ((find_files cvL cvExtensions).length * (find_files jobL jobExtensions).length)
      ((batchRecords runO (find_files cvL cvExtensions)
        (find_files jobL jobExtensions)).countP (fun r => r.status == sSuccess))
      ((batchRecords runO (find_files cvL cvExtensions)
        (find_files jobL jobExtensions)).countP (fun r => r.status != sSuccess))
      (batchRecords runO (find_files cvL cvExtensions)
        (find_files jobL jobExtensions))) ∧
    (batchRecords runO (find_files cvL cvExtensions)
      (find_files jobL jobExtensions)).map (fun r => (r.cv_file, r.job_file)) =
      batchInvocations (find_files cvL cvExtensions) (find_files jobL jobExtensions) ∧
    (batchRecords runO (find_files cvL cvExtensions)
      (find_files jobL jobExtensions)).length =
      (find_files cvL cvExtensions).length * (find_files jobL jobExtensions).length ∧
    (∀ r ∈ batchRecords runO (find_files cvL cvExtensions)
      (find_files jobL jobExtensions),
      r.status = sSuccess ∨ r.status = sFailed ∨ r.status = sException) ∧
    (find_files cvL cvExtensions).Pairwise (fun a b => strLt b a = false) ∧
    (find_files jobL jobExtensions).Pairwise (fun a b => strLt b a = false) := by
  have e1 : (find_files cvL cvExtensions).isEmpty = false := by
    cases hc : find_files cvL cvExtensions with
    | nil => exact absurd hc h1
    | cons a l => rfl
  have e2 : (find_files jobL jobExtensions).isEmpty = false := by
    cases hc : find_files jobL jobExtensions with
    | nil => exact absurd hc h2
    | cons a l => rfl
  refine ⟨?_, batchRecords_pairs runO _ _, batchRecords_length runO _ _,
    batchRecords_statuses runO _ _, find_files_sorted _ _, find_files_sorted _ _⟩
  simp [process_batch, e1, e2]

/-- Witness for claim C8 at a singleton batch. -/
theorem claim_c8_witness :
    (batchRecords (fun _ _ => RunOutcome.exn []) (find_files [cvA] cvExtensions)
        (find_files [jb1] jobExtensions)).length =
      (find_files [cvA] cvExtensions).length * (find_files [jb1] jobExtensions).length :=
  (claim_c8_batch_contract [cvA] [jb1] (fun _ _ => RunOutcome.exn [])
    (by decide) (by decide)).2.2.1

/-- Claim C9: when the converted text is below fifty characters after
stripping (the conversion result having no success key, as the converter
never writes one), the processor returns the failure envelope carrying the
too-short message and the remote extractor receives no call at all. -/
theorem claim_c9_short_text_gate (doc : DocResult) (ex : Str → Envelope)
    (hs : doc.success = none) (hlen : (pyStrip doc.text).length < 50) :
    process_resume doc ex = (PRes.mk false (some msgTooShort) none, []) :=
  process_resume_too_short doc ex hs hlen

/-- Witness for claim C9 at a concrete short text. -/
theorem claim_c9_witness :
    process_resume (DocResult.mk none ("short".toList) none none) extOracle0 =
      (PRes.mk false (some msgTooShort) none, []) :=
  claim_c9_short_text_gate (DocResult.mk none ("short".toList) none none)
    extOracle0 rfl (by decide)

/-- Claim C10, counterexample: the three extraction methods are not one and
the same function. On an input holding a brace pair outside an untagged
fenced block, the groq extractor returns the fenced candidate through its
extra pattern while the job-side and generator-side extractors return the
first-to-last brace span; the two candidates differ. -/
theorem claim_c10_counterexample :
    groqExtractJson c10Input = ("\x7bb\x7d".toList) ∧
    jobExtractJson c10Input = some ("\x7ba\x7d ```\x7bb\x7d".toList) ∧
    genExtractJson c10Input = ("\x7ba\x7d ```\x7bb\x7d".toList) ∧
    toCand (groqExtractJson c10Input) ≠ jobExtractJson c10Input := by decide

/-- Claim C10, amended: the job-side and generator-side extractors do
implement one and the same function, identifying the None and empty-string
encodings of no candidate; the groq extractor differs only by its extra
untagged-fence pattern and agrees with them on every input where that
pattern finds nothing. -/
theorem claim_c10_extractor_agreement :
    (∀ c, genExtractJson c = (jobExtractJson c).getD []) ∧
    (∀ c, pat2 c = none → groqExtractJson c = (jobExtractJson c).getD []) := by
  constructor
  · intro c
    unfold genExtractJson jobExtractJson
    cases h1 : pat1 c <;> cases h3 : pat3 c <;> cases h4 : pat4 c <;> simp
  · intro c h2
    unfold groqExtractJson jobExtractJson
    rw [h2]
    cases h1 : pat1 c <;> cases h3 : pat3 c <;> cases h4 : pat4 c <;> simp

/-- Witness for the amended claim C10 at a concrete input. -/
theorem claim_c10_witness :
    genExtractJson ("abc".toList) = (jobExtractJson ("abc".toList)).getD [] ∧
    groqExtractJson ("abc".toList) = (jobExtractJson ("abc".toList)).getD [] :=
  ⟨claim_c10_extractor_agreement.1 ("abc".toList),
    claim_c10_extractor_agreement.2 ("abc".toList) (by decide)⟩
